import Mathlib

/-!
Shallow embedding of `src/CoT_streamlit.py`, a single-file Streamlit dashboard
that loads a CFTC Commitment-of-Traders spreadsheet into a pandas DataFrame,
derives calendar columns, and builds a 2x2 Plotly figure (Long / Short / Net /
Spreading) with one line per selected year.

Modelling conventions:
* A DataFrame cell is either a numeric value (anything `pd.to_numeric` can
  convert, modelled as a rational), a non-convertible value (malformed text),
  or a missing value (NaN / NA / None).  `pd.to_numeric(.., errors="coerce")`
  is `Cell.toNumeric : Cell → Option ℚ`, with `none` standing for NaN.
* A row is a finite mapping from column names to cells plus the already-parsed
  report date (the script parses `report_date_as_yyyy_mm_dd` with
  `pd.to_datetime`; we start from the parsed date).
* Python `sorted` is `List.insertionSort (· ≤ ·)` (any correct sort of a
  linearly ordered list produces the same output); Python `max` on a list is
  `pymax`, which fails (`none`) on the empty list exactly as `max([])` raises.
* Run-time failures of the script (KeyError on the trader lookup, TypeError
  from subtracting object-dtype `None` columns, ValueError from `max([])`)
  are modelled by `Except RenderError`.
-/

deriving instance DecidableEq for Except

/-- A calendar date, as produced by `pd.to_datetime`. -/
structure Date where
  year : Int
  month : Nat
  day : Nat
deriving DecidableEq, Repr

/-- One cell of the spreadsheet: a numeric value (any value `pd.to_numeric`
can convert — numbers and numeric strings), a value it cannot convert
(malformed text, carried verbatim), or a missing value. -/
inductive Cell where
  | num (q : ℚ)
  | nonNumeric (s : String)
  | na
deriving DecidableEq, Repr

/-- `pd.to_numeric(x, errors="coerce")` on one cell: numeric values are kept,
everything else becomes missing (NaN); the conversion never raises
(line 118 of `CoT_streamlit.py`). -/
def Cell.toNumeric : Cell → Option ℚ
  | Cell.num q => some q
  | Cell.nonNumeric _ => none
  | Cell.na => none

/-- One row of the loaded table: the parsed report date plus the position
columns, as a finite association of column name to cell. -/
structure Row where
  date : Date
  cells : List (String × Cell)
deriving DecidableEq, Repr

/-- `row[colname]`: look the column up in the row.  The script only reads
columns it has checked for membership in `df.columns`, so the `Cell.na`
default for an absent name is never consulted on those paths. -/
def Row.get (r : Row) (c : String) : Cell :=
  match r.cells.lookup c with
  | some v => v
  | none => Cell.na

/-- The loaded DataFrame: the column names of the sheet and its rows. -/
structure DataFrame where
  cols : List String
  rows : List Row
deriving DecidableEq, Repr

/-- `df["year"]` for one row: the calendar year of the parsed report date
(line 38: `df["year"] = df["date"].dt.year`). -/
def Row.year (r : Row) : Int := r.date.year

/-- Line 39-41: `df["seasonal_date"] = pd.to_datetime("2000-" + df["date"].dt.strftime("%m-%d"))`.
The month and day are formatted and re-parsed with the fixed year 2000
(a leap year, so every valid month/day pair stays valid). -/
def seasonal_date (d : Date) : Date :=
  { year := 2000, month := d.month, day := d.day }

/-- The derived `seasonal_date` column of the whole table. -/
def seasonalColumn (df : DataFrame) : List Date :=
  df.rows.map (fun r => seasonal_date r.date)

/-- Line 50: `available_years = sorted(df["year"].unique())`. -/
def available_years (df : DataFrame) : List Int :=
  ((df.rows.map Row.year).dedup).insertionSort (· ≤ ·)

/-- Line 53-57: the default of the `Years` multiselect is
`available_years[-6:]`, the last six (or all, when fewer) of the
ascending-sorted distinct years.  Python's `l[-6:]` is `l.drop (l.length - 6)`
(ℕ-subtraction truncates at 0 exactly as the negative slice clamps). -/
def years_default (df : DataFrame) : List Int :=
  (available_years df).drop ((available_years df).length - 6)

/-- The column names attached to one trader category in `trader_map`
(lines 59-85): a dict with keys `"long"`, `"short"`, `"spread"`, where the
spread entry may be `None`.  The long/short entries are never `None` in the
source table, but the value type admits it. -/
structure TraderCols where
  long : Option String
  short : Option String
  spread : Option String
deriving DecidableEq, Repr

/-- Lines 59-85: the static trader-category table, verbatim from the source
(including the double underscore in the swap-dealer short/spread names). -/
def trader_map : List (String × TraderCols) :=
  [ ("PMPU",
      { long := some "prod_merc_positions_long",
        short := some "prod_merc_positions_short",
        spread := none }),
    ("Swap Dealer",
      { long := some "swap_positions_long_all",
        short := some "swap__positions_short_all",
        spread := some "swap__positions_spread_all" }),
    ("Money Managers",
      { long := some "m_money_positions_long_all",
        short := some "m_money_positions_short_all",
        spread := some "m_money_positions_spread" }),
    ("Other Reportables",
      { long := some "other_rept_positions_long",
        short := some "other_rept_positions_short",
        spread := some "other_rept_positions_spread" }),
    ("Nonreportables",
      { long := some "nonrept_positions_long_all",
        short := some "nonrept_positions_short_all",
        spread := none }) ]

/-- Line 111: `cols = trader_map[trader_choice]`; a missing key raises
KeyError, modelled by `none`. -/
def lookupTrader (trader_choice : String) : Option TraderCols :=
  trader_map.lookup trader_choice

/-- Lines 93-97: the static crop-suffix table.  The suffix is read from the
UI (line 99-102) but never applied to any column lookup. -/
def crop_map : List (String × String) :=
  [("All", ""), ("Old Crop", "_1"), ("Other Crop", "_2")]

/-- Line 112: `df_plot = df[df["year"].isin(years_selected)].copy()`. -/
def selectRows (df : DataFrame) (years_selected : List Int) : DataFrame :=
  { cols := df.cols,
    rows := df.rows.filter (fun r => r.year ∈ years_selected) }

/-- Lines 115-118, `series_from_col`: `None` when the column name is `None`
or not among the DataFrame's columns, otherwise the column coerced to
numeric elementwise. -/
def series_from_col (df_plot : DataFrame) (colname : Option String) :
    Option (List (Option ℚ)) :=
  match colname with
  | none => none
  | some c =>
      if c ∈ df_plot.cols then
        some (df_plot.rows.map (fun r => (r.get c).toNumeric))
      else none

/-- Elementwise subtraction of two (possibly missing) cells, as pandas does
for `df_plot["pos_long"] - df_plot["pos_short"]` on numeric columns: a
missing operand makes the result missing. -/
def sub2 (a b : Option ℚ) : Option ℚ :=
  match a, b with
  | some x, some y => some (x - y)
  | _, _ => none

/-- One row of `df_plot` together with its four computed position columns
(lines 121-128). -/
structure PlotRow where
  row : Row
  pos_long : Option ℚ
  pos_short : Option ℚ
  pos_net : Option ℚ
  pos_spread : Option ℚ
deriving DecidableEq, Repr

/-- Zip the rows of `df_plot` with the computed long/short/spread columns;
`pos_net` is the elementwise difference of the long and short columns
(line 123). -/
def zipRows : List Row → List (Option ℚ) → List (Option ℚ) → List (Option ℚ) →
    List PlotRow
  | r :: rs, a :: la, b :: lb, c :: lc =>
      { row := r, pos_long := a, pos_short := b, pos_net := sub2 a b,
        pos_spread := c } :: zipRows rs la lb lc
  | _, _, _, _ => []

/-- The run-time failures the script can hit while building the figure. -/
inductive RenderError where
  | keyError    -- `trader_map[trader_choice]` with an unknown key (line 111)
  | typeError   -- line 123 subtracts object-dtype `None` columns when a long
                -- or short column is missing from the sheet
  | emptyMax    -- line 146: `max(years_selected)` on an empty selection
deriving DecidableEq, Repr

/-- Lines 121-128: compute the four position columns of `df_plot`.
When `series_from_col` yields `None` for long or short, line 121/122 stores a
`None`-filled object column and the subtraction on line 123 raises TypeError.
A `None` spread entry broadcasts `pd.NA` (all-missing, line 126); a named
spread column missing from the sheet broadcasts `None` (also all-missing). -/
def computeTable (df_plot : DataFrame) (cols : TraderCols) :
    Except RenderError (List PlotRow) :=
  match series_from_col df_plot cols.long, series_from_col df_plot cols.short with
  | some ls, some ss =>
      let sp : List (Option ℚ) :=
        match cols.spread with
        | none => List.replicate df_plot.rows.length none
        | some _ =>
            match series_from_col df_plot cols.spread with
            | none => List.replicate df_plot.rows.length none
            | some l => l
      Except.ok (zipRows df_plot.rows ls ss sp)
  | _, _ => Except.error RenderError.typeError

/-- Python's `max` on a list of ints: `none` (a raised ValueError) on `[]`,
otherwise the left fold of binary `max` (line 146). -/
def pymax (l : List Int) : Option Int :=
  match l with
  | [] => none
  | x :: xs => some (xs.foldl max x)

/-- Line 148: `palette = px.colors.qualitative.Plotly`, the ten-colour
Plotly qualitative palette. -/
def palette : List String :=
  ["#636EFA", "#EF553B", "#00CC96", "#AB63FA", "#FFA15A",
   "#19D3F3", "#FF6692", "#B6E880", "#FF97FF", "#FECB52"]

/-- Lines 149-150:
`years_sorted = sorted(years_selected)` and
`color_map = {y: palette[i % len(palette)] for i, y in enumerate(years_sorted)}`.
The multiselect returns distinct years, so for the lists that reach this code
the enumeration index of `y` in `years_sorted` is `indexOf`. -/
def colorOf (years_selected : List Int) (y : Int) : String :=
  let years_sorted := years_selected.insertionSort (· ≤ ·)
  palette.getD (years_sorted.indexOf y % palette.length) ""

/-- Lines 139-144: the `panels` dict, in insertion order — column key and
(row, col) of the subplot it is drawn into. -/
def panels : List (String × Nat × Nat) :=
  [("pos_long", 1, 1), ("pos_short", 1, 2), ("pos_net", 2, 1), ("pos_spread", 2, 2)]

/-- `tmp[col]` for the four computed columns (line 167). -/
def PlotRow.colVal (pr : PlotRow) (name : String) : Option ℚ :=
  if name = "pos_long" then pr.pos_long
  else if name = "pos_short" then pr.pos_short
  else if name = "pos_net" then pr.pos_net
  else if name = "pos_spread" then pr.pos_spread
  else none

/-- One `go.Scatter` trace added to the figure (lines 164-176).  The source
stores `name=str(y)` and `legendgroup=str(y)`; we record the year itself. -/
structure Trace where
  year : Int
  panel : String
  row : Nat
  col : Nat
  showlegend : Bool
  width : ℚ
  opacity : ℚ
  color : String
  x : List Date
  y : List (Option ℚ)
deriving DecidableEq, Repr

/-- Sort key used for `sort_values("seasonal_date")`: the seasonal dates all
carry year 2000, so they order by month then day. -/
def seasonalKey (d : Date) : Nat := d.month * 100 + d.day

/-- Lines 152-176: the per-year, per-panel trace loop.  For each year of the
sorted selection, the rows of that year are sorted by seasonal date and one
trace per panel is added, skipping the spread panel when the trader category
has no spread column (line 161); style is the emphasis rule of lines 154-157
and the palette colour of line 172. -/
def buildTraces (cols : TraderCols) (years_selected : List Int)
    (current_year : Int) (table : List PlotRow) : List Trace :=
  (years_selected.insertionSort (· ≤ ·)).flatMap (fun y =>
    let tmp := (table.filter (fun pr => pr.row.year = y)).insertionSort
      (fun a b => seasonalKey (seasonal_date a.row.date) ≤ seasonalKey (seasonal_date b.row.date))
    let width : ℚ := if y = current_year then 4 else 3/2
    let opacity : ℚ := if y = current_year then 1 else 3/5
    (panels.filter (fun p => !(p.1 = "pos_spread" ∧ cols.spread = none))).map
      (fun p =>
        { year := y, panel := p.1, row := p.2.1, col := p.2.2,
          showlegend := p.2.1 == 1 && p.2.2 == 1,
          width := width, opacity := opacity,
          color := colorOf years_selected y,
          x := tmp.map (fun pr => seasonal_date pr.row.date),
          y := tmp.map (fun pr => pr.colVal p.1) }))

/-- Line 190: the advisory text added when the trader category has no spread
column. -/
def spreadNote : String := "Spreading not available for this trader type"

/-- The Plotly figure, reduced to what the script determines: its traces, the
paper annotations (their text), and the layout title (line 182). -/
structure Figure where
  traces : List Trace
  notes : List String
  title : String
deriving DecidableEq, Repr

/-- Lines 111-195: one full render pass for the given selections — trader
lookup, row filter, series computation, emphasis year, traces, and the
spread advisory annotation. -/
def buildFigure (df : DataFrame) (years_selected : List Int)
    (trader_choice crop_choice : String) : Except RenderError Figure :=
  match lookupTrader trader_choice with
  | none => Except.error RenderError.keyError
  | some cols =>
      let df_plot := selectRows df years_selected
      match computeTable df_plot cols with
      | Except.error e => Except.error e
      | Except.ok table =>
          match pymax years_selected with
          | none => Except.error RenderError.emptyMax
          | some current_year =>
              Except.ok
                { traces := buildTraces cols years_selected current_year table,
                  notes := if cols.spread = none then [spreadNote] else [],
                  title := "Cotton – " ++ trader_choice ++ " (" ++ crop_choice ++ ")" }

/-- The `Years` multiselect of lines 53-57: its option list and its default
value. -/
structure Multiselect where
  options : List Int
  dflt : List Int
deriving DecidableEq, Repr

/-- Lines 53-57: `st.sidebar.multiselect("Years", available_years,
default=available_years[-6:])`. -/
def yearMultiselect (df : DataFrame) : Multiselect :=
  { options := available_years df, dflt := years_default df }

/-- Concrete data used to instantiate the theorems below: one report row
carrying the PMPU long/short columns. -/
def sampleRow : Row :=
  { date := { year := 2023, month := 5, day := 2 },
    cells := [("prod_merc_positions_long", Cell.num 10),
              ("prod_merc_positions_short", Cell.num 3)] }

/-- A one-row DataFrame over the PMPU columns. -/
def sampleDF : DataFrame :=
  { cols := ["report_date_as_yyyy_mm_dd", "prod_merc_positions_long",
             "prod_merc_positions_short"],
    rows := [sampleRow] }

/-- The `trader_map` entry for `"PMPU"`. -/
def pmpu : TraderCols :=
  { long := some "prod_merc_positions_long",
    short := some "prod_merc_positions_short",
    spread := none }

/-- The plot row `computeTable` produces from `sampleRow` under PMPU. -/
def samplePR : PlotRow :=
  { row := sampleRow, pos_long := some 10, pos_short := some 3,
    pos_net := sub2 (some 10) (some 3), pos_spread := none }

/-- The table `computeTable` produces from `sampleDF` under PMPU. -/
def sampleTable : List PlotRow := [samplePR]

/-- The traces built for years `[2022, 2023]` over `sampleTable` under
PMPU (2023 being the maximum, hence the emphasised year). -/
def sampleTraces : List Trace := buildTraces pmpu [2022, 2023] 2023 sampleTable

/-- The last of `sampleTraces`: a trace of the emphasised year 2023. -/
def sampleTrace : Trace := sampleTraces.getLast (by decide)

/-- The figure of a full sample render pass (PMPU, year 2023, crop `All`). -/
def sampleFig : Figure :=
  match buildFigure sampleDF [2023] "PMPU" "All" with
  | Except.ok f => f
  | Except.error _ => { traces := [], notes := [], title := "" }

/-! ### Helper lemmas -/

lemma pos_net_of_mem_zipRows (rs : List Row) (la lb lc : List (Option ℚ))
    (pr : PlotRow) (h : pr ∈ zipRows rs la lb lc) :
    pr.pos_net = sub2 pr.pos_long pr.pos_short := by
  induction rs generalizing la lb lc with
  | nil => simp [zipRows] at h
  | cons r rs ih =>
    cases la with
    | nil => simp [zipRows] at h
    | cons a la =>
      cases lb with
      | nil => simp [zipRows] at h
      | cons b lb =>
        cases lc with
        | nil => simp [zipRows] at h
        | cons c lc =>
          rcases List.mem_cons.mp h with h | h
          · subst h; rfl
          · exact ih la lb lc h

lemma pos_spread_of_mem_zipRows (rs : List Row) (la lb lc : List (Option ℚ))
    (hc : ∀ x ∈ lc, x = none) (pr : PlotRow) (h : pr ∈ zipRows rs la lb lc) :
    pr.pos_spread = none := by
  induction rs generalizing la lb lc with
  | nil => simp [zipRows] at h
  | cons r rs ih =>
    cases la with
    | nil => simp [zipRows] at h
    | cons a la =>
      cases lb with
      | nil => simp [zipRows] at h
      | cons b lb =>
        cases lc with
        | nil => simp [zipRows] at h
        | cons c lc =>
          rcases List.mem_cons.mp h with h | h
          · subst h; exact hc c (List.mem_cons_self c lc)
          · exact ih la lb lc (fun x hx => hc x (List.mem_cons_of_mem c hx)) h

lemma le_foldl_max (xs : List Int) (x : Int) :
    x ≤ xs.foldl max x ∧ ∀ y ∈ xs, y ≤ xs.foldl max x := by
  induction xs generalizing x with
  | nil => exact ⟨le_refl x, by simp⟩
  | cons a xs ih =>
    obtain ⟨h1, h2⟩ := ih (max x a)
    refine ⟨le_trans (le_max_left x a) h1, ?_⟩
    intro y hy
    rcases List.mem_cons.mp hy with rfl | hy
    · exact le_trans (le_max_right x y) h1
    · exact h2 y hy

lemma foldl_max_mem (xs : List Int) (x : Int) :
    xs.foldl max x = x ∨ xs.foldl max x ∈ xs := by
  induction xs generalizing x with
  | nil => exact Or.inl rfl
  | cons a xs ih =>
    rcases ih (max x a) with h | h
    · rcases max_choice x a with hm | hm
      · exact Or.inl (by rw [List.foldl_cons, h, hm])
      · exact Or.inr (by rw [List.foldl_cons, h, hm]; exact List.mem_cons_self a xs)
    · exact Or.inr (List.mem_cons_of_mem a h)

lemma pymax_mem (l : List Int) (m : Int) (h : pymax l = some m) : m ∈ l := by
  cases l with
  | nil => simp [pymax] at h
  | cons x xs =>
    simp only [pymax, Option.some.injEq] at h
    subst h
    rcases foldl_max_mem xs x with h | h
    · rw [h]; exact List.mem_cons_self x xs
    · exact List.mem_cons_of_mem x h

lemma le_pymax (l : List Int) (m : Int) (h : pymax l = some m) :
    ∀ y ∈ l, y ≤ m := by
  cases l with
  | nil => simp [pymax] at h
  | cons x xs =>
    simp only [pymax, Option.some.injEq] at h
    subst h
    intro y hy
    rcases List.mem_cons.mp hy with rfl | hy
    · exact (le_foldl_max xs y).1
    · exact (le_foldl_max xs x).2 y hy

lemma mem_buildTraces_fields (cols : TraderCols) (ys : List Int) (m : Int)
    (table : List PlotRow) (tr : Trace) (h : tr ∈ buildTraces cols ys m table) :
    tr.year ∈ ys ∧
    tr.width = (if tr.year = m then (4 : ℚ) else 3 / 2) ∧
    tr.opacity = (if tr.year = m then (1 : ℚ) else 3 / 5) ∧
    ¬(tr.panel = "pos_spread" ∧ cols.spread = none) := by
  simp only [buildTraces, List.mem_flatMap] at h
  obtain ⟨y, hy, h⟩ := h
  simp only [List.mem_map, List.mem_filter] at h
  obtain ⟨p, ⟨hp, hcond⟩, rfl⟩ := h
  refine ⟨(List.perm_insertionSort _ ys).mem_iff.mp hy, rfl, rfl, ?_⟩
  have hx : ¬p.1 = "pos_spread" ∨ ¬cols.spread = none := by simpa using hcond
  tauto

lemma buildTraces_year_exists (cols : TraderCols) (ys : List Int) (m : Int)
    (table : List PlotRow) (y : Int) (hy : y ∈ ys) :
    ∃ tr ∈ buildTraces cols ys m table, tr.year = y := by
  simp only [buildTraces, List.mem_flatMap, List.mem_map, List.mem_filter]
  refine ⟨_, ⟨y, (List.perm_insertionSort _ ys).mem_iff.mpr hy,
    ⟨("pos_long", 1, 1), ⟨?_, ?_⟩, rfl⟩⟩, rfl⟩
  · simp [panels]
  · simp

lemma selectRows_nil (df : DataFrame) :
    selectRows df [] = { cols := df.cols, rows := [] } := by
  simp [selectRows]

/-! ### Claims -/

/-- C1: for every row of the plotted table, the net position equals long
minus short, computed elementwise after numeric coercion, whenever both
values are present. -/
theorem net_is_long_minus_short (df_plot : DataFrame) (cols : TraderCols)
    (table : List PlotRow) (h : computeTable df_plot cols = Except.ok table)
    (pr : PlotRow) (hpr : pr ∈ table) (a b : ℚ)
    (ha : pr.pos_long = some a) (hb : pr.pos_short = some b) :
    pr.pos_net = some (a - b) := by
  have hz : pr.pos_net = sub2 pr.pos_long pr.pos_short := by
    cases hls : series_from_col df_plot cols.long with
    | none => simp [computeTable, hls] at h
    | some ls =>
      cases hss : series_from_col df_plot cols.short with
      | none => simp [computeTable, hls, hss] at h
      | some ss =>
        simp only [computeTable, hls, hss, Except.ok.injEq] at h
        subst h
        exact pos_net_of_mem_zipRows _ _ _ _ _ hpr
  rw [hz, ha, hb]; rfl

/-- C1 witness: the sample PMPU row has long 10, short 3, and net 7. -/
theorem net_is_long_minus_short_w : samplePR.pos_net = some (10 - 3) :=
  net_is_long_minus_short (selectRows sampleDF [2023]) pmpu sampleTable
    (by rfl) samplePR (List.mem_singleton.mpr rfl) 10 3 rfl rfl

/-- C6: every entry of the derived `seasonal_date` column keeps the month and
day of the parsed report date of the corresponding row and carries the fixed
reference year 2000, so all real years share one calendar axis. -/
theorem seasonal_axis (df : DataFrame) (i : Nat) (r : Row)
    (h : df.rows[i]? = some r) :
    (seasonalColumn df)[i]? =
      some { year := 2000, month := r.date.month, day := r.date.day } := by
  simp [seasonalColumn, List.getElem?_map, h, seasonal_date]

/-- C6 witness: the sample row (2023-05-02) is rebased to 2000-05-02. -/
theorem seasonal_axis_w :
    (seasonalColumn sampleDF)[0]? =
      some { year := 2000, month := 5, day := 2 } :=
  seasonal_axis sampleDF 0 sampleRow rfl

/-- C7: the static trader mapping has exactly 5 categories, each with a
present long and short column name, and the spread name is absent for
exactly two categories (present for the other three). -/
theorem trader_map_shape :
    trader_map.length = 5 ∧
    (∀ e ∈ trader_map, e.2.long ≠ none ∧ e.2.short ≠ none) ∧
    (trader_map.filter (fun e => e.2.spread.isNone)).length = 2 ∧
    (trader_map.filter (fun e => e.2.spread.isSome)).length = 3 := by
  decide

/-- C8: numeric coercion of a cell is total — a numeric cell is preserved,
and any cell that is not numeric (malformed text or missing) becomes a
missing value instead of raising. -/
theorem to_numeric_total (c : Cell) :
    (∀ q : ℚ, c = Cell.num q → c.toNumeric = some q) ∧
    ((∀ q : ℚ, c ≠ Cell.num q) → c.toNumeric = none) := by
  cases c with
  | num q =>
      refine ⟨?_, ?_⟩
      · rintro q' h
        rw [h]
        rfl
      · intro h
        exact absurd rfl (h q)
  | nonNumeric s => exact ⟨fun _ h => Cell.noConfusion h, fun _ => rfl⟩
  | na => exact ⟨fun _ h => Cell.noConfusion h, fun _ => rfl⟩

/-- C8 witness: a numeric cell keeps its value and a missing cell coerces to
missing. -/
theorem to_numeric_total_w :
    Cell.toNumeric (Cell.num 5) = some 5 ∧ Cell.toNumeric Cell.na = none :=
  ⟨(to_numeric_total (Cell.num 5)).1 5 rfl,
   (to_numeric_total Cell.na).2 (fun _ h => Cell.noConfusion h)⟩

/-- C2: when the selected trader category has no spread column, the computed
spread series is missing on every row, the figure carries the fixed advisory
annotation text, and no data trace is drawn into the spread panel. -/
theorem spread_absent_handling (df : DataFrame) (ys : List Int) (t c : String)
    (cols : TraderCols) (fig : Figure) (table : List PlotRow)
    (hl : lookupTrader t = some cols) (hsp : cols.spread = none)
    (ht : computeTable (selectRows df ys) cols = Except.ok table)
    (hf : buildFigure df ys t c = Except.ok fig) :
    (∀ pr ∈ table, pr.pos_spread = none) ∧
    fig.notes = [spreadNote] ∧
    (∀ tr ∈ fig.traces, tr.panel ≠ "pos_spread") := by
  have htab : ∀ pr ∈ table, pr.pos_spread = none := by
    cases hls : series_from_col (selectRows df ys) cols.long with
    | none => simp [computeTable, hls] at ht
    | some ls =>
      cases hss : series_from_col (selectRows df ys) cols.short with
      | none => simp [computeTable, hls, hss] at ht
      | some ss =>
        simp only [computeTable, hls, hss, hsp, Except.ok.injEq] at ht
        subst ht
        intro pr hpr
        exact pos_spread_of_mem_zipRows _ _ _ _
          (fun x hx => List.eq_of_mem_replicate hx) pr hpr
  cases hm : pymax ys with
  | none => simp [buildFigure, hl, ht, hm] at hf
  | some m =>
    simp only [buildFigure, hl, ht, hm, hsp, Except.ok.injEq] at hf
    subst hf
    refine ⟨htab, by simp, ?_⟩
    intro tr htr hpan
    exact (mem_buildTraces_fields cols ys m table tr htr).2.2.2 ⟨hpan, hsp⟩

/-- C2 witness: the PMPU render pass of the sample data carries the advisory
annotation, its spread series is all-missing, and no trace sits in the
spread panel. -/
theorem spread_absent_handling_w :
    sampleFig.notes = [spreadNote] :=
  (spread_absent_handling sampleDF [2023] "PMPU" "All" pmpu sampleFig
    sampleTable (by decide) rfl (by rfl) (by rfl)).2.1

/-- C3: when the year selection is non-empty, its Python maximum `m` is a
selected year at least as large as every other one; every trace of the
emphasised year is drawn with width 4 and opacity 1, every trace of any
other year with width 1.5 and opacity 0.6, and every selected year gets at
least one trace. -/
theorem emphasis_is_max (cols : TraderCols) (ys : List Int)
    (table : List PlotRow) (m : Int) (hm : pymax ys = some m) :
    m ∈ ys ∧ (∀ y ∈ ys, y ≤ m) ∧
    (∀ tr ∈ buildTraces cols ys m table,
      ((tr.width = 4 ∧ tr.opacity = 1) ↔ tr.year = m) ∧
      (tr.year ≠ m → tr.width = 3 / 2 ∧ tr.opacity = 3 / 5)) ∧
    (∀ y ∈ ys, ∃ tr ∈ buildTraces cols ys m table, tr.year = y) := by
  refine ⟨pymax_mem ys m hm, le_pymax ys m hm, ?_,
    fun y hy => buildTraces_year_exists cols ys m table y hy⟩
  intro tr htr
  obtain ⟨-, hw, ho, -⟩ := mem_buildTraces_fields cols ys m table tr htr
  by_cases hy : tr.year = m
  · simp only [hy, if_pos rfl] at hw ho
    exact ⟨⟨fun _ => hy, fun _ => ⟨hw, ho⟩⟩, fun h => absurd hy h⟩
  · simp only [if_neg hy] at hw ho
    refine ⟨⟨fun hwo => ?_, fun h => absurd h hy⟩, fun _ => ⟨hw, ho⟩⟩
    exact absurd (hw.symm.trans hwo.1) (by norm_num)

/-- C3 witness: the last sample trace belongs to the emphasised year 2023,
and its styling is the emphasis styling. -/
theorem emphasis_is_max_w :
    (sampleTrace.width = 4 ∧ sampleTrace.opacity = 1) ↔ sampleTrace.year = 2023 :=
  ((emphasis_is_max pmpu [2022, 2023] sampleTable 2023 (by decide)).2.2.1
    sampleTrace (List.getLast_mem (by decide))).1

/-- C4: the colour of a year is the palette entry at the year's index in the
ascending-sorted selection, modulo the palette length; in particular any two
selection orders of the same (duplicate-free) year set give every year the
same colour. -/
theorem color_assignment_stable (l₁ l₂ : List Int) (y : Int)
    (_hn : l₁.Nodup) (hp : l₁.Perm l₂) :
    colorOf l₁ y = colorOf l₂ y ∧
    colorOf l₁ y =
      palette.getD ((l₁.insertionSort (· ≤ ·)).indexOf y % palette.length) "" := by
  have hs : l₁.insertionSort (· ≤ ·) = l₂.insertionSort (· ≤ ·) :=
    List.eq_of_perm_of_sorted
      (((List.perm_insertionSort _ l₁).trans hp).trans
        (List.perm_insertionSort _ l₂).symm)
      (List.sorted_insertionSort _ l₁) (List.sorted_insertionSort _ l₂)
  exact ⟨by simp only [colorOf, hs], rfl⟩

/-- C4 witness: the year 2021 receives the same colour whether the selection
was made as `[2023, 2021]` or as `[2021, 2023]`. -/
theorem color_assignment_stable_w :
    colorOf [2023, 2021] 2021 = colorOf [2021, 2023] 2021 :=
  (color_assignment_stable [2023, 2021] [2021, 2023] 2021
    (by decide) (by decide)).1

/-- C5: the crop-segment selection is inert — with all other inputs equal,
any two crop choices produce a render pass with identical traces (hence
identical long/short/net/spread series over identical selected rows) and
identical annotations; only the title text can differ. -/
theorem crop_choice_inert (df : DataFrame) (ys : List Int) (t c₁ c₂ : String) :
    (buildFigure df ys t c₁).map (fun f => (f.traces, f.notes)) =
      (buildFigure df ys t c₂).map (fun f => (f.traces, f.notes)) := by
  cases hl : lookupTrader t with
  | none => simp [buildFigure, hl, Except.map]
  | some cols =>
    cases hc : computeTable (selectRows df ys) cols with
    | error e => simp [buildFigure, hl, hc, Except.map]
    | ok table =>
      cases hm : pymax ys with
      | none => simp [buildFigure, hl, hc, hm, Except.map]
      | some m => simp [buildFigure, hl, hc, hm, Except.map]

/-- C9: the `Years` multiselect offers exactly the available years (the
ascending-sorted distinct years of the data, here shown strictly sorted) and
defaults to their most recent six: a suffix of the sorted list of length
`min 6 _`, every element of which exceeds every non-default available year. -/
theorem year_multiselect_spec (df : DataFrame) :
    (yearMultiselect df).options = available_years df ∧
    (yearMultiselect df).dflt = years_default df ∧
    years_default df <:+ available_years df ∧
    (years_default df).length = min 6 (available_years df).length ∧
    List.Sorted (· < ·) (available_years df) ∧
    (∀ x ∈ available_years df, x ∉ years_default df →
      ∀ y ∈ years_default df, x < y) := by
  have hsorted : List.Sorted (· < ·) (available_years df) :=
    (List.sorted_insertionSort _ _).lt_of_le
      ((List.perm_insertionSort _ _).nodup_iff.mpr (List.nodup_dedup _))
  have hsuf : years_default df <:+ available_years df :=
    List.drop_suffix _ _
  refine ⟨rfl, rfl, hsuf, ?_, hsorted, ?_⟩
  · rw [years_default, List.length_drop]
    omega
  · obtain ⟨pre, hpre⟩ := hsuf
    intro x hx hxd y hy
    have hx2 : x ∈ pre := by
      rw [← hpre] at hx
      rcases List.mem_append.mp hx with h | h
      · exact h
      · exact absurd h hxd
    have := (List.pairwise_append.mp (hpre ▸ hsorted)).2.2
    exact this x hx2 y hy

/-- C9 witness: the sample DataFrame offers its single available year. -/
theorem year_multiselect_spec_w :
    (yearMultiselect sampleDF).options = available_years sampleDF :=
  (year_multiselect_spec sampleDF).1

/-- C10: deselecting all years makes the render pass fail — with a valid
trader choice whose long and short columns are present in the sheet, the
run reaches line 146 and `max([])` raises, so the figure is never built. -/
theorem empty_year_selection_fails (df : DataFrame) (t c : String)
    (cols : TraderCols) (cl cs : String)
    (hl : lookupTrader t = some cols)
    (hcl : cols.long = some cl) (hclm : cl ∈ df.cols)
    (hcs : cols.short = some cs) (hcsm : cs ∈ df.cols) :
    buildFigure df [] t c = Except.error RenderError.emptyMax := by
  have h1 : series_from_col (selectRows df []) cols.long = some [] := by
    rw [selectRows_nil, hcl]
    simp [series_from_col, hclm]
  have h2 : series_from_col (selectRows df []) cols.short = some [] := by
    rw [selectRows_nil, hcs]
    simp [series_from_col, hcsm]
  cases hct : computeTable (selectRows df []) cols with
  | error e => simp [computeTable, h1, h2] at hct
  | ok table => simp [buildFigure, hl, hct, pymax]

/-- C10 witness: the sample render pass with an empty year selection fails
with the empty-max error. -/
theorem empty_year_selection_fails_w :
    buildFigure sampleDF [] "PMPU" "All" = Except.error RenderError.emptyMax :=
  empty_year_selection_fails sampleDF "PMPU" "All" pmpu
    "prod_merc_positions_long" "prod_merc_positions_short"
    (by decide) rfl (by decide) rfl (by decide)
